import Mathlib

/-!
# Verification of the Google Calendar MCP server core

Shallow embedding of `src/mcp_server_google_calendar` (datetime normalization,
timezone resolution, availability/conflict checking, request validation,
create-event dispatch, tool registration) and proofs of the behavioural
properties stated in the specification.

Conventions of the embedding:
* Python strings are Lean `String`s; `Optional[str]` inputs are modelled with
  the empty string standing for the falsy cases (`None` / `""`), which the
  source treats identically (`if not dt_string: return dt_string`).
* The tz database (`pytz.timezone`) is a parameter
  `tzdb : String → Option TimezoneModel`; a `TimezoneModel` assigns to each
  naive local datetime the UTC offset (in minutes) that `tz.localize`
  (with its default `is_dst` policy) attaches to it.
* A Python function that may raise an uncaught exception is embedded with
  result type `Except ε α` (`.error` = exception propagates to the caller).
* Remote Google Calendar API calls are oracles: a free/busy query outcome is
  an `Except String (List BusyInterval)` value, `.error` being any network,
  auth or response failure.
-/

set_option autoImplicit false

namespace GCalMCP

/-! ## Naive datetimes, parsing and serialization -/

/-- A naive (offset-free) datetime, the embedding of a Python `datetime`
without `tzinfo`. -/
structure NaiveDT where
  year : Nat
  month : Nat
  day : Nat
  hour : Nat
  minute : Nat
  second : Nat
deriving DecidableEq, Repr

/-- Gregorian leap-year test (as in Python's `calendar.isleap`). -/
def isLeapYear (y : Nat) : Bool :=
  (y % 4 == 0 && y % 100 != 0) || y % 400 == 0

/-- Days in a month, used by `datetime`'s range validation. -/
def daysInMonth (y m : Nat) : Nat :=
  if m == 2 then (if isLeapYear y then 29 else 28)
  else if m == 4 || m == 6 || m == 9 || m == 11 then 30
  else 31

/-- Field-range validity enforced by the `datetime` constructor. -/
def NaiveDT.valid (d : NaiveDT) : Bool :=
  1 ≤ d.year && d.year ≤ 9999 &&
  1 ≤ d.month && d.month ≤ 12 &&
  1 ≤ d.day && d.day ≤ daysInMonth d.year d.month &&
  d.hour ≤ 23 && d.minute ≤ 59 && d.second ≤ 59

/-- Numeric value of a run of ASCII digits. -/
def digitsToNat (cs : List Char) : Nat :=
  cs.foldl (fun a c => 10 * a + (c.toNat - '0'.toNat)) 0

/-- Parse `YYYY-MM-DDTHH:MM:SS` with full range validation: the embedding of
both `datetime.fromisoformat` on a 19-character input containing `T` and
`datetime.strptime(s, "%Y-%m-%dT%H:%M:%S")`; either raises (here: `none`)
when the shape or a field range is violated. -/
def parseNaiveDT (s : String) : Option NaiveDT :=
  match s.toList with
  | [y1, y2, y3, y4, '-', m1, m2, '-', d1, d2, 'T',
     h1, h2, ':', n1, n2, ':', s1, s2] =>
    if ([y1, y2, y3, y4, m1, m2, d1, d2, h1, h2, n1, n2, s1, s2].all Char.isDigit) then
      let dt : NaiveDT :=
        { year := digitsToNat [y1, y2, y3, y4]
          month := digitsToNat [m1, m2]
          day := digitsToNat [d1, d2]
          hour := digitsToNat [h1, h2]
          minute := digitsToNat [n1, n2]
          second := digitsToNat [s1, s2] }
      if dt.valid then some dt else none
    else none
  | _ => none

/-- Parse `YYYY-MM-DD` with range validation: the embedding of
`datetime.strptime(s, "%Y-%m-%d")`, yielding midnight of that date. -/
def parseDate (s : String) : Option NaiveDT :=
  match s.toList with
  | [y1, y2, y3, y4, '-', m1, m2, '-', d1, d2] =>
    if ([y1, y2, y3, y4, m1, m2, d1, d2].all Char.isDigit) then
      let dt : NaiveDT :=
        { year := digitsToNat [y1, y2, y3, y4]
          month := digitsToNat [m1, m2]
          day := digitsToNat [d1, d2]
          hour := 0, minute := 0, second := 0 }
      if dt.valid then some dt else none
    else none
  | _ => none

/-- Zero-padded two-digit rendering, as in `datetime.isoformat`. -/
def pad2 (n : Nat) : String :=
  if n < 10 then "0" ++ toString n else toString n

/-- Zero-padded four-digit year rendering, as in `datetime.isoformat`. -/
def pad4 (n : Nat) : String :=
  if n < 10 then "000" ++ toString n
  else if n < 100 then "00" ++ toString n
  else if n < 1000 then "0" ++ toString n
  else toString n

/-- Offset suffix `±HH:MM` produced by `isoformat` for a whole-minute UTC
offset. -/
def fmtOffset (minutes : Int) : String :=
  if 0 ≤ minutes then
    "+" ++ pad2 (minutes.toNat / 60) ++ ":" ++ pad2 (minutes.toNat % 60)
  else
    "-" ++ pad2 ((-minutes).toNat / 60) ++ ":" ++ pad2 ((-minutes).toNat % 60)

/-- `aware_datetime.isoformat()`: the naive fields followed by the explicit
UTC-offset suffix. -/
def isoformat (d : NaiveDT) (offsetMinutes : Int) : String :=
  pad4 d.year ++ "-" ++ pad2 d.month ++ "-" ++ pad2 d.day ++ "T" ++
  pad2 d.hour ++ ":" ++ pad2 d.minute ++ ":" ++ pad2 d.second ++
  fmtOffset offsetMinutes

/-! ## Timezone models -/

/-- A timezone as the normalizer observes it: `localize` attaches to a naive
local datetime the zone's UTC offset (minutes) for that local instant. -/
structure TimezoneModel where
  offsetAt : NaiveDT → Int

/-- The fixed zone `pytz.timezone("UTC")`. -/
def utcTZ : TimezoneModel := ⟨fun _ => 0⟩

/-- `localize` + `isoformat`: serialize a naive datetime with the offset the
zone assigns to it. -/
def localizeIso (tz : TimezoneModel) (d : NaiveDT) : String :=
  isoformat d (tz.offsetAt d)

/-! ## String helpers mirroring the Python string operations -/

/-- `s[-n:]` on an ASCII string: the last `n` characters (the whole string
when it is shorter). -/
def lastChars (n : Nat) (s : String) : List Char :=
  s.toList.drop (s.toList.length - n)

/-- `s.endswith(suffix)`. -/
def strEndsWith (s suffix : String) : Bool :=
  let cs := s.toList
  let ss := suffix.toList
  decide (cs.drop (cs.length - ss.length) = ss) && decide (ss.length ≤ cs.length)

/-- `c in s` membership test. -/
def strContainsChar (s : String) (c : Char) : Bool :=
  s.toList.contains c

/-! ## Regular-expression shape tests of `server_sse.py` -/

/-- `re.match(r'^\d{4}-\d{2}-\d{2}$', s)`. -/
def matchBareDate (s : String) : Bool :=
  match s.toList with
  | [y1, y2, y3, y4, '-', m1, m2, '-', d1, d2] =>
    [y1, y2, y3, y4, m1, m2, d1, d2].all Char.isDigit
  | _ => false

/-- `re.match(r'^\d{4}-\d{2}-\d{2}T\d{2}:\d{2}:\d{2}$', s)`. -/
def matchNaiveDTShape (s : String) : Bool :=
  match s.toList with
  | [y1, y2, y3, y4, '-', m1, m2, '-', d1, d2, 'T',
     h1, h2, ':', n1, n2, ':', s1, s2] =>
    [y1, y2, y3, y4, m1, m2, d1, d2, h1, h2, n1, n2, s1, s2].all Char.isDigit
  | _ => false

/-- `re.match(r'^\d{4}-\d{2}-\d{2}T\d{2}:\d{2}:\d{2}\.\d+$', s)`. -/
def matchNaiveFracShape (s : String) : Bool :=
  match s.toList with
  | y1 :: y2 :: y3 :: y4 :: '-' :: m1 :: m2 :: '-' :: d1 :: d2 :: 'T' ::
    h1 :: h2 :: ':' :: n1 :: n2 :: ':' :: s1 :: s2 :: '.' :: rest =>
    [y1, y2, y3, y4, m1, m2, d1, d2, h1, h2, n1, n2, s1, s2].all Char.isDigit
      && !rest.isEmpty && rest.all Char.isDigit
  | _ => false

/-- `re.sub(r'\.\d+$', '', s)`: strip a trailing dot-and-digits run when
present. -/
def stripFracSuffix (s : String) : String :=
  let rev := s.toList.reverse
  let digs := rev.takeWhile Char.isDigit
  match rev.drop digs.length with
  | '.' :: rest => if digs.isEmpty then s else String.mk rest.reverse
  | _ => s

/-! ## Datetime Normalizer, stdio variant (`server.py::validate_and_fix_datetime`)

The whole body sits in a `try`; the `except` handler returns the *current*
value of the local variable `dt_string`, which the bare-date branch has
already extended with `"T00:00:00"` before the parse that can fail. The
body is therefore embedded as an `Except` computation whose error payload
is that current value. -/

/-- The `try`-body of `server.py::validate_and_fix_datetime`; an `.error`
carries the value of the local `dt_string` at the point the exception is
raised (which the bare-date branch has mutated). -/
def fixDatetimeStdioBody (tzdb : String → Option TimezoneModel)
    (dt_string : String) (default_timezone : String) : Except String String :=
  if strEndsWith dt_string "Z" || (lastChars 6 dt_string).contains '+'
      || strEndsWith dt_string "+00:00" then
    .ok dt_string
  else if strContainsChar dt_string 'T' && dt_string.length == 19 then
    match parseNaiveDT dt_string with
    | none => .error dt_string
    | some dt =>
      match tzdb default_timezone with
      | none => .error dt_string
      | some tz => .ok (localizeIso tz dt)
  else if dt_string.length == 10 && strContainsChar dt_string '-' then
    let dt2 := dt_string ++ "T00:00:00"
    match parseNaiveDT dt2 with
    | none => .error dt2
    | some dt =>
      match tzdb default_timezone with
      | none => .error dt2
      | some tz => .ok (localizeIso tz dt)
  else
    .ok dt_string

/-- `server.py::validate_and_fix_datetime`: total; any exception in the body
is caught and the handler returns the local `dt_string`. -/
def validate_and_fix_datetime (tzdb : String → Option TimezoneModel)
    (dt_string : String) (default_timezone : String) : String :=
  if dt_string = "" then dt_string
  else
    match fixDatetimeStdioBody tzdb dt_string default_timezone with
    | .ok r => r
    | .error cur => cur

/-! ## Datetime Normalizer, SSE variant (`server_sse.py::validate_and_fix_datetime`)

The function re-resolves the session timezone internally
(`default_timezone = get_user_timezone()`), discarding the caller's
argument; `sessionTz` below is the value that internal call returns. The
`strptime` calls are *not* guarded by any handler, so a parse failure
escapes the function: result type `Except String String`. -/

/-- `server_sse.py::validate_and_fix_datetime`. `sessionTz` is the result
of the internal `get_user_timezone()` call; the passed `default_timezone`
argument is overwritten by it before use, exactly as in the source. -/
def validate_and_fix_datetime_sse (tzdb : String → Option TimezoneModel)
    (sessionTz : String) (dt_string : String) (default_timezone : String) :
    Except String String :=
  if dt_string = "" then .ok dt_string
  else if strEndsWith dt_string "Z" || (lastChars 6 dt_string).contains '+'
      || (lastChars 6 dt_string).contains '-' then
    .ok dt_string
  else
    -- `default_timezone = get_user_timezone(); tz_obj = pytz.timezone(...)`,
    -- falling back to UTC when the zone lookup fails; note `default_timezone`
    -- the argument is dead from this point on.
    let _ := default_timezone
    let tz_obj := (tzdb sessionTz).getD utcTZ
    if matchBareDate dt_string then
      match parseDate dt_string with
      | none => .error ("strptime failed on " ++ dt_string)
      | some dt => .ok (localizeIso tz_obj dt)
    else if matchNaiveDTShape dt_string then
      match parseNaiveDT dt_string with
      | none => .error ("strptime failed on " ++ dt_string)
      | some dt => .ok (localizeIso tz_obj dt)
    else if matchNaiveFracShape dt_string then
      let dt_clean := stripFracSuffix dt_string
      match parseNaiveDT dt_clean with
      | none => .error ("strptime failed on " ++ dt_clean)
      | some dt => .ok (localizeIso tz_obj dt)
    else
      .ok dt_string

/-- A small concrete tz database used by the concrete evaluations below:
UTC, a fixed-offset zone, and a simplified DST zone. -/
def tzdbEx : String → Option TimezoneModel := fun name =>
  if name = "UTC" then some utcTZ
  else if name = "Asia/Tokyo" then some ⟨fun _ => 540⟩
  else if name = "America/New_York" then
    some ⟨fun dt => if 3 < dt.month && dt.month < 11 then -240 else -300⟩
  else none

/-! ## Timezone Resolver (`get_user_timezone`)

The process-wide cache `_user_timezone : Option String` is threaded
explicitly. The remote settings call
`settings().get(setting="timezone").execute()` followed by
`settings.get("value", "UTC")` is an oracle of type
`Except Unit (Option String)`: `.ok (some v)` is a response whose dict has
`"value" = v`, `.ok none` a response lacking the key (defaulted to
`"UTC"`), `.error ()` any raised failure. -/

/-- The timezone-cache state (`_user_timezone` global). -/
structure TzState where
  cache : Option String
deriving DecidableEq, Repr

/-- Result of one resolver call: the returned string, the cache state after
the call, and whether a remote settings query was issued. -/
structure TzResolveOut where
  value : String
  state : TzState
  queried : Bool
deriving DecidableEq, Repr

/-- `server.py::get_user_timezone(calendar)`: the stdio variant, which always
has a service handle in hand. -/
def get_user_timezone_stdio (st : TzState)
    (query : Except Unit (Option String)) : TzResolveOut :=
  match st.cache with
  | some tzv => ⟨tzv, st, false⟩
  | none =>
    match query with
    | .ok v =>
      let tzv := v.getD "UTC"
      ⟨tzv, ⟨some tzv⟩, true⟩
    | .error _ => ⟨"UTC", ⟨some "UTC"⟩, true⟩

/-- `server_sse.py::get_user_timezone()`: additionally guards on the cached
`_calendar_service` handle (`service` = the handle exists); when the handle
is absent it returns `"UTC"` *without* writing the cache or querying. -/
def get_user_timezone_sse (service : Bool) (st : TzState)
    (query : Except Unit (Option String)) : TzResolveOut :=
  match st.cache with
  | some tzv => ⟨tzv, st, false⟩
  | none =>
    if !service then ⟨"UTC", st, false⟩
    else
      match query with
      | .ok v =>
        let tzv := v.getD "UTC"
        ⟨tzv, ⟨some tzv⟩, true⟩
      | .error _ => ⟨"UTC", ⟨some "UTC"⟩, true⟩

/-! ## Availability Checker and create-event dispatch

Busy intervals are half-open pairs of instants on an integer timeline (the
parsed value of the RFC3339 strings exchanged with the service). The remote
free/busy endpoint reports exactly the stored busy intervals that intersect
the queried window; the outcome of one query, including possible failure,
is an `Except String (List BusyInterval)` oracle. -/

/-- A (start, end) busy interval on the integer timeline. -/
abbrev BusyInterval := Int × Int

/-- Two half-open intervals intersect. -/
def intervalsOverlap (a b : BusyInterval) : Bool :=
  a.1 < b.2 && b.1 < a.2

/-- The remote calendar's state visible to this server: the busy intervals
on the target calendar. -/
structure RemoteCalendar where
  busy : List BusyInterval
deriving DecidableEq, Repr

/-- A *successful* `freebusy().query` response: the busy intervals that
intersect the queried window. -/
def freebusyResponse (cal : RemoteCalendar) (window : BusyInterval) :
    List BusyInterval :=
  cal.busy.filter (fun s => intervalsOverlap s window)

/-- `server.py::check_time_slot_availability`: `True` iff the busy list is
empty; any exception is swallowed and the slot is assumed available. -/
def check_time_slot_availability (fb : Except String (List BusyInterval)) :
    Bool :=
  match fb with
  | .ok busy_slots => busy_slots.length == 0
  | .error _ => true

/-- The Conflict Report returned by
`server_sse.py::check_time_slot_conflicts`. The per-slot display
localization is abstracted into the `fmt` parameter below. -/
structure ConflictReport (α : Type) where
  has_conflicts : Bool
  conflicts : List α
  error : Option String
deriving DecidableEq, Repr

/-- `server_sse.py::check_time_slot_conflicts`: a successful query yields
`has_conflicts = (busy list nonempty)` and the formatted busy slots; a
failed query yields the fail-open report with the error message. -/
def check_time_slot_conflicts {α : Type} (fmt : BusyInterval → α)
    (fb : Except String (List BusyInterval)) : ConflictReport α :=
  match fb with
  | .ok busy_slots =>
    { has_conflicts := decide (busy_slots.length > 0)
      conflicts := busy_slots.map fmt
      error := none }
  | .error e =>
    { has_conflicts := false
      conflicts := []
      error := some ("Could not check for conflicts: " ++ e) }

/-- Outcome of one create-event dispatch: the `status` field of the returned
envelope (`some "CONFLICT"` on the conflict branch, `none` otherwise),
whether `events().insert` was invoked, and the remote calendar state after
the call (an invoked insert adds the event's interval as a new busy slot). -/
structure CreateOutcome where
  status : Option String
  insertInvoked : Bool
  remote : RemoteCalendar
deriving DecidableEq, Repr

/-- The conflict-gated tail of `server.py::handle_call_tool`'s
`create-event` branch: check availability on the normalized interval, either
short-circuit with the `status:"CONFLICT"` envelope or invoke the insert. -/
def create_event_stdio (cal : RemoteCalendar)
    (fb : Except String (List BusyInterval)) (interval : BusyInterval) :
    CreateOutcome :=
  if check_time_slot_availability fb then
    ⟨none, true, ⟨interval :: cal.busy⟩⟩
  else
    ⟨some "CONFLICT", false, cal⟩

/-- The conflict-gated tail of `server_sse.py::create_event`: run
`check_time_slot_conflicts`, either short-circuit with the
`status:"CONFLICT"` envelope or invoke the insert. -/
def create_event_sse {α : Type} (fmt : BusyInterval → α)
    (cal : RemoteCalendar) (fb : Except String (List BusyInterval))
    (interval : BusyInterval) : CreateOutcome :=
  let conflict_check := check_time_slot_conflicts fmt fb
  if conflict_check.has_conflicts then
    ⟨some "CONFLICT", false, cal⟩
  else
    ⟨none, true, ⟨interval :: cal.busy⟩⟩

/-! ## Request Validators (`schemas.py`)

Each pydantic model is a structure holding the declared fields with their
declared defaults; each `Field` constraint becomes one conjunct of a
decidable validity predicate — pydantic raises a `ValidationError` exactly
when a conjunct fails. `EmailStr` delegates to the external email-validator
package, embedded as the abstract predicate parameter `isEmail`. -/

/-- `schemas.Attendee` with its field defaults. -/
structure Attendee where
  email : String
  displayName : Option String := none
  optionalFlag : Option Bool := some false
  responseStatus : Option String := some "needsAction"
  comment : Option String := none
  additionalGuests : Option Int := some 0
deriving DecidableEq, Repr

/-- `schemas.Attachment`. -/
structure Attachment where
  fileId : String
  fileUrl : Option String := none
  title : Option String := none
  mimeType : Option String := none
deriving DecidableEq, Repr

/-- `schemas.ReminderOverride`: `method` is a two-value `Literal`; `minutes`
is a plain `int` with *no* range constraint. -/
structure ReminderOverride where
  method : String
  minutes : Int
deriving DecidableEq, Repr

/-- `schemas.Reminders`. -/
structure Reminders where
  useDefault : Option Bool := none
  overrides : Option (List ReminderOverride) := none
deriving DecidableEq, Repr

/-- `schemas.CreateEventRequest` (the fields subject to constraints, plus
the required strings). -/
structure CreateEventRequest where
  calendarId : String
  summary : String
  description : Option String := none
  location : Option String := none
  colorId : Option String := none
  start_datetime : String
  end_datetime : String
  timezone : Option String := none
  recurrence : Option (List String) := none
  attendees : Option (List Attendee) := none
  attachments : Option (List Attachment) := none
  reminders : Option Reminders := none
  visibility : Option String := some "default"
  transparency : Option String := some "opaque"
deriving DecidableEq, Repr

/-- `schemas.FreeBusyItem` and `schemas.FreeBusyRequest`. -/
structure FreeBusyItem where
  id : String
deriving DecidableEq, Repr

/-- `schemas.FreeBusyRequest` with its numeric bounds (`le=100`, `le=50`). -/
structure FreeBusyRequest where
  timeMin : String
  timeMax : String
  timeZone : Option String := some "UTC"
  groupExpansionMax : Option Int := none
  calendarExpansionMax : Option Int := none
  items : List FreeBusyItem
deriving DecidableEq, Repr

/-- Validity of one attendee: `EmailStr`-shaped email, `responseStatus`
restricted to its `Literal` values, `additionalGuests` with `ge=0`. -/
def validAttendee (isEmail : String → Bool) (a : Attendee) : Bool :=
  isEmail a.email
  && (match a.responseStatus with
      | none => true
      | some s => ["needsAction", "declined", "tentative", "accepted"].contains s)
  && (match a.additionalGuests with
      | none => true
      | some n => decide (0 ≤ n))

/-- Validity of one reminder override: the `method` `Literal` only —
`minutes` carries no constraint in the schema. -/
def validReminderOverride (r : ReminderOverride) : Bool :=
  r.method == "email" || r.method == "popup"

/-- Validity of a `Reminders` value. -/
def validReminders (r : Reminders) : Bool :=
  match r.overrides with
  | none => true
  | some l => l.all validReminderOverride

/-- Validation of a `CreateEventRequest`: the conjunction of every declared
`Field` constraint; `False` means pydantic raises a `ValidationError`. -/
def validCreateEventRequest (isEmail : String → Bool)
    (r : CreateEventRequest) : Bool :=
  (match r.attendees with
   | none => true
   | some l => l.all (validAttendee isEmail))
  && (match r.attachments with
      | none => true
      | some l => decide (l.length ≤ 25))
  && (match r.reminders with
      | none => true
      | some rem => validReminders rem)
  && (match r.visibility with
      | none => true
      | some v => ["default", "public", "private", "confidential"].contains v)
  && (match r.transparency with
      | none => true
      | some t => t == "opaque" || t == "transparent")

/-- Validation of a `FreeBusyRequest`: the `le=100` and `le=50` bounds. -/
def validFreeBusyRequest (r : FreeBusyRequest) : Bool :=
  (match r.groupExpansionMax with
   | none => true
   | some n => decide (n ≤ 100))
  && (match r.calendarExpansionMax with
      | none => true
      | some n => decide (n ≤ 50))

/-! ## Attendee projection to the provider event body

`attendee.model_dump(exclude_none=True)`: the declared fields in
declaration order, skipping those whose value is `None`. -/

/-- A JSON scalar appearing in a dumped attendee. -/
inductive JVal
  | s (v : String)
  | b (v : Bool)
  | i (v : Int)
deriving DecidableEq, Repr

/-- `Attendee.model_dump(exclude_none=True)`. -/
def Attendee.model_dump_exclude_none (a : Attendee) : List (String × JVal) :=
  [("email", JVal.s a.email)]
  ++ (match a.displayName with | none => [] | some v => [("displayName", JVal.s v)])
  ++ (match a.optionalFlag with | none => [] | some v => [("optional", JVal.b v)])
  ++ (match a.responseStatus with | none => [] | some v => [("responseStatus", JVal.s v)])
  ++ (match a.comment with | none => [] | some v => [("comment", JVal.s v)])
  ++ (match a.additionalGuests with | none => [] | some v => [("additionalGuests", JVal.i v)])

/-- The `attendees` field of the provider event body built by both
`create-event` dispatchers:
`event_data["attendees"] = [a.model_dump(exclude_none=True) for a in request_data.attendees]`
when attendees were supplied, omitted otherwise. -/
def buildEventAttendees (r : CreateEventRequest) :
    Option (List (List (String × JVal))) :=
  r.attendees.map (fun l => l.map Attendee.model_dump_exclude_none)

/-! ## Tool registration of the two transports -/

/-- The tool names registered by the stdio transport
(`tools.py::GOOGLE_CALENDAR_TOOLS`). -/
def stdioToolNames : List String :=
  ["get-events", "list-calendars", "get-timezone-info", "get-current-date",
   "check-availability", "create-event", "delete-event", "update-event"]

/-- The tool names registered by the SSE transport (the `@mcp.tool()`
function names of `server_sse.py`, in definition order). -/
def sseToolNames : List String :=
  ["get_events", "list_calendars", "get_timezone_info", "get_current_date",
   "check_availability", "create_event", "delete_event", "update_event"]

/-- Replace every hyphen by an underscore. -/
def hyphenToUnderscore (s : String) : String :=
  String.mk (s.toList.map (fun c => if c = '-' then '_' else c))

/-! ## Theorems -/

/-- Claim C1: when the free/busy query succeeds and the normalized
start/end interval overlaps at least one existing busy interval on the
target calendar, both create-event dispatchers return the
`status:"CONFLICT"` envelope, never invoke the remote insert, and leave the
remote calendar state unchanged. -/
theorem C1_create_event_conflict_gate {α : Type} (fmt : BusyInterval → α)
    (cal : RemoteCalendar) (iv : BusyInterval)
    (h : ∃ b ∈ cal.busy, intervalsOverlap b iv = true) :
    (create_event_sse fmt cal (.ok (freebusyResponse cal iv)) iv).status
        = some "CONFLICT"
    ∧ (create_event_sse fmt cal (.ok (freebusyResponse cal iv)) iv).insertInvoked
        = false
    ∧ (create_event_sse fmt cal (.ok (freebusyResponse cal iv)) iv).remote = cal
    ∧ (create_event_stdio cal (.ok (freebusyResponse cal iv)) iv).status
        = some "CONFLICT"
    ∧ (create_event_stdio cal (.ok (freebusyResponse cal iv)) iv).insertInvoked
        = false
    ∧ (create_event_stdio cal (.ok (freebusyResponse cal iv)) iv).remote = cal := by
  obtain ⟨b, hb, hov⟩ := h
  have hmem : b ∈ freebusyResponse cal iv :=
    List.mem_filter.mpr ⟨hb, hov⟩
  have hpos : 0 < (freebusyResponse cal iv).length :=
    List.length_pos.mpr (List.ne_nil_of_mem hmem)
  have hsse : (check_time_slot_conflicts fmt
      (.ok (freebusyResponse cal iv))).has_conflicts = true := by
    simp [check_time_slot_conflicts, hpos]
  have hne : ((freebusyResponse cal iv).length == 0) = false := by
    simp [Nat.pos_iff_ne_zero.mp hpos]
  refine ⟨?_, ?_, ?_, ?_, ?_, ?_⟩ <;>
    simp [create_event_sse, create_event_stdio, check_time_slot_availability,
      hsse, hne]

/-- Witness for C1 at a concrete overlap: busy interval `(0, 10)` against a
candidate `(5, 15)`. -/
theorem C1_create_event_conflict_gate_witness :
    (∃ b ∈ (⟨[((0 : Int), (10 : Int))]⟩ : RemoteCalendar).busy,
      intervalsOverlap b ((5 : Int), (15 : Int)) = true)
    ∧ (create_event_stdio ⟨[((0 : Int), (10 : Int))]⟩
        (.ok (freebusyResponse ⟨[((0 : Int), (10 : Int))]⟩ ((5 : Int), (15 : Int))))
        ((5 : Int), (15 : Int))).insertInvoked = false :=
  ⟨by decide,
   (C1_create_event_conflict_gate (fun s => s) ⟨[((0 : Int), (10 : Int))]⟩
     ((5 : Int), (15 : Int)) (by decide)).2.2.2.2.1⟩

/-- Claim C2: an availability check whose underlying free/busy query raises
returns the fail-open report `{has_conflicts := false, conflicts := [],
error := some message}`, and neither create-event dispatcher is blocked by
the failure: both proceed to invoke the remote insert. -/
theorem C2_availability_check_fail_open {α : Type} (fmt : BusyInterval → α)
    (e : String) (cal : RemoteCalendar) (iv : BusyInterval) :
    check_time_slot_conflicts fmt (.error e) =
      ⟨false, [], some ("Could not check for conflicts: " ++ e)⟩
    ∧ (check_time_slot_conflicts fmt
        (Except.error (α := List BusyInterval) e)).error ≠ none
    ∧ (create_event_sse fmt cal (.error e) iv).insertInvoked = true
    ∧ check_time_slot_availability (.error e) = true
    ∧ (create_event_stdio cal (.error e) iv).insertInvoked = true :=
  ⟨rfl, by simp [check_time_slot_conflicts], rfl, rfl, rfl⟩

/-- Claim C3 (bug evidence): the SSE normalizer returns a bare date
unchanged — its leading already-qualified test (`'-'` among the last six
characters) matches every `YYYY-MM-DD` string — while the stdio normalizer
performs the documented conversion to midnight local time with the zone's
offset for that date. -/
theorem C3_sse_bare_date_returned_unchanged :
    validate_and_fix_datetime_sse tzdbEx "America/New_York" "2024-06-15"
        "America/New_York" = .ok "2024-06-15"
    ∧ validate_and_fix_datetime tzdbEx "2024-06-15" "America/New_York"
        = "2024-06-15T00:00:00-04:00"
    ∧ validate_and_fix_datetime tzdbEx "2024-12-15" "America/New_York"
        = "2024-12-15T00:00:00-05:00" :=
  ⟨rfl, rfl, rfl⟩

/-- Claim C4 (bug evidence): the SSE normalizer overwrites its timezone
argument with the session-resolved timezone before localizing — with the
session timezone cached as UTC, a naive datetime passed with the argument
`"Asia/Tokyo"` comes back with offset `+00:00`, not `+09:00` — and the
stdio normalizer returns a fractional-seconds input unchanged instead of
discarding the fraction and localizing. -/
theorem C4_sse_ignores_timezone_argument :
    validate_and_fix_datetime_sse tzdbEx "UTC" "2024-06-15T13:04:05"
        "Asia/Tokyo" = .ok "2024-06-15T13:04:05+00:00"
    ∧ validate_and_fix_datetime_sse tzdbEx "UTC" "2024-06-15T13:04:05"
        "Asia/Tokyo" ≠ .ok "2024-06-15T13:04:05+09:00"
    ∧ validate_and_fix_datetime tzdbEx "2024-06-15T13:04:05.123" "Asia/Tokyo"
        = "2024-06-15T13:04:05.123"
    ∧ validate_and_fix_datetime_sse tzdbEx "Asia/Tokyo"
        "2024-06-15T13:04:05.123" "Asia/Tokyo"
        = .ok "2024-06-15T13:04:05+09:00" := by
  refine ⟨rfl, ?_, rfl, rfl⟩
  intro hx
  rw [show validate_and_fix_datetime_sse tzdbEx "UTC" "2024-06-15T13:04:05"
      "Asia/Tokyo" = .ok "2024-06-15T13:04:05+00:00" from rfl] at hx
  exact absurd (Except.ok.inj hx) (by decide)

/-- Claim C5 (bug evidence): the normalizer is not a total
return-the-input-on-error function. The stdio variant, on a bare-date-shaped
string whose parse fails, returns the *mutated* local (input plus the
appended `"T00:00:00"`), not the input unchanged; the SSE variant lets the
`strptime` exception escape on a shape-matching but calendar-invalid
datetime. -/
theorem C5_normalizer_not_total :
    validate_and_fix_datetime tzdbEx "2024-13-45" "UTC"
        = "2024-13-45T00:00:00"
    ∧ validate_and_fix_datetime tzdbEx "2024-13-45" "UTC" ≠ "2024-13-45"
    ∧ (validate_and_fix_datetime_sse tzdbEx "UTC" "2024-13-45T10:00:00"
        "UTC").isOk = false :=
  ⟨rfl, by decide, rfl⟩

/-- Claim C6: timezone resolution is an effectively-once idempotent cache.
Starting from an empty cache: a failing settings query caches `"UTC"` and a
successful query caches the queried value; either way the next call (under
any query oracle) returns the cached value, leaves the state unchanged and
issues no remote query. Both the stdio and the SSE resolver (with the
service handle present) behave this way. -/
theorem C6_timezone_cache_idempotent (st : TzState) (h : st.cache = none)
    (q2 : Except Unit (Option String)) :
    (get_user_timezone_stdio st (.error ()) = ⟨"UTC", ⟨some "UTC"⟩, true⟩
      ∧ get_user_timezone_stdio ⟨some "UTC"⟩ q2 = ⟨"UTC", ⟨some "UTC"⟩, false⟩)
    ∧ (∀ v : String,
        get_user_timezone_stdio st (.ok (some v)) = ⟨v, ⟨some v⟩, true⟩
        ∧ get_user_timezone_stdio ⟨some v⟩ q2 = ⟨v, ⟨some v⟩, false⟩)
    ∧ (get_user_timezone_sse true st (.error ()) = ⟨"UTC", ⟨some "UTC"⟩, true⟩
      ∧ get_user_timezone_sse true ⟨some "UTC"⟩ q2
          = ⟨"UTC", ⟨some "UTC"⟩, false⟩)
    ∧ (∀ v : String,
        get_user_timezone_sse true st (.ok (some v)) = ⟨v, ⟨some v⟩, true⟩
        ∧ get_user_timezone_sse true ⟨some v⟩ q2 = ⟨v, ⟨some v⟩, false⟩) := by
  obtain ⟨c⟩ := st
  cases h
  exact ⟨⟨rfl, rfl⟩, fun v => ⟨rfl, rfl⟩, ⟨rfl, rfl⟩, fun v => ⟨rfl, rfl⟩⟩

/-- Witness for C6: a first failing resolution from the empty cache caches
`"UTC"`; the second call returns it without querying. -/
theorem C6_timezone_cache_idempotent_witness :
    get_user_timezone_stdio ⟨none⟩ (.error ()) = ⟨"UTC", ⟨some "UTC"⟩, true⟩
    ∧ get_user_timezone_stdio ⟨some "UTC"⟩ (.ok (some "America/New_York"))
        = ⟨"UTC", ⟨some "UTC"⟩, false⟩ :=
  ⟨(C6_timezone_cache_idempotent ⟨none⟩ rfl (.ok (some "America/New_York"))).1.1,
   (C6_timezone_cache_idempotent ⟨none⟩ rfl (.ok (some "America/New_York"))).1.2⟩

/-- Claim C7 (counterexample): with an empty cache and no service handle,
the SSE resolver returns `"UTC"` but does *not* cache it — the cache stays
empty — and the very next call with the handle available issues the remote
query and returns its value. The premature `"UTC"` is neither cached nor
frozen. -/
theorem C7_counterexample_premature_utc_not_frozen :
    (get_user_timezone_sse false ⟨none⟩ (.error ())).value = "UTC"
    ∧ (get_user_timezone_sse false ⟨none⟩ (.error ())).state.cache = none
    ∧ (get_user_timezone_sse true
        (get_user_timezone_sse false ⟨none⟩ (.error ())).state
        (.ok (some "America/New_York"))).value = "America/New_York"
    ∧ (get_user_timezone_sse true
        (get_user_timezone_sse false ⟨none⟩ (.error ())).state
        (.ok (some "America/New_York"))).queried = true :=
  ⟨rfl, rfl, rfl, rfl⟩

/-- Claim C7 (amended): if resolution is attempted before the Calendar
Service Handle exists, the SSE resolver returns a premature `"UTC"` without
caching it and without querying; once the handle is available, a subsequent
call issues the settings query and caches its result as usual. -/
theorem C7_premature_utc_uncached (st : TzState) (h : st.cache = none)
    (q : Except Unit (Option String)) (v : String) :
    get_user_timezone_sse false st q = ⟨"UTC", st, false⟩
    ∧ get_user_timezone_sse true st (.ok (some v)) = ⟨v, ⟨some v⟩, true⟩ := by
  obtain ⟨c⟩ := st
  cases h
  exact ⟨rfl, rfl⟩

/-- Witness for C7 (amended) at the empty cache. -/
theorem C7_premature_utc_uncached_witness :
    get_user_timezone_sse false ⟨none⟩ (.error ()) = ⟨"UTC", ⟨none⟩, false⟩
    ∧ get_user_timezone_sse true ⟨none⟩ (.ok (some "Europe/Paris"))
        = ⟨"Europe/Paris", ⟨some "Europe/Paris"⟩, true⟩ :=
  C7_premature_utc_uncached ⟨none⟩ rfl (.error ()) "Europe/Paris"

/-- A create request carrying a reminder override with negative minutes,
used to exhibit that the schema accepts it. -/
def negativeReminderRequest : CreateEventRequest :=
  { calendarId := "primary"
    summary := "standup"
    start_datetime := "2024-06-15T09:00:00"
    end_datetime := "2024-06-15T09:30:00"
    reminders := some { useDefault := some false
                        overrides := some [⟨"popup", -5⟩] } }

/-- Claim C8 (counterexample): a reminder override with `minutes = -5`
passes validation — `ReminderOverride.minutes` carries no lower bound in the
schema — so negative reminder minutes are silently accepted, contrary to
the claim. -/
theorem C8_counterexample_negative_minutes_accepted :
    validCreateEventRequest (fun s => s.toList.contains '@')
        negativeReminderRequest = true
    ∧ validReminderOverride ⟨"popup", -5⟩ = true := by
  exact ⟨rfl, rfl⟩

/-- Claim C8 (amended): request validation rejects, before any network
call, attachment sequences longer than 25, `calendarExpansionMax` above 50,
`groupExpansionMax` above 100, and non-email-shaped attendee addresses;
reminder minutes, however, are unconstrained integers (any value, including
negative, is accepted). -/
theorem C8_validation_bounds (isEmail : String → Bool)
    (r : CreateEventRequest) (fb : FreeBusyRequest) :
    (∀ l, r.attachments = some l → 25 < l.length →
      validCreateEventRequest isEmail r = false)
    ∧ (∀ n, fb.calendarExpansionMax = some n → 50 < n →
        validFreeBusyRequest fb = false)
    ∧ (∀ n, fb.groupExpansionMax = some n → 100 < n →
        validFreeBusyRequest fb = false)
    ∧ (∀ a l, r.attendees = some l → a ∈ l → isEmail a.email = false →
        validCreateEventRequest isEmail r = false)
    ∧ (∀ m : Int, validReminderOverride ⟨"popup", m⟩ = true) := by
  refine ⟨?_, ?_, ?_, ?_, ?_⟩
  · intro l hl hlen
    simp [validCreateEventRequest, hl, Nat.not_le.mpr hlen]
  · intro n hn hgt
    simp [validFreeBusyRequest, hn, Int.not_le.mpr hgt]
  · intro n hn hgt
    simp [validFreeBusyRequest, hn, Int.not_le.mpr hgt]
  · intro a l hl ha hmail
    have : validAttendee isEmail a = false := by
      simp [validAttendee, hmail]
    simp only [validCreateEventRequest, hl]
    rw [List.all_eq_false.mpr ⟨a, ha, by simp [this]⟩]
    simp
  · intro m
    rfl

/-- Concrete inputs instantiating each conjunct of C8's amended theorem. -/
theorem C8_validation_bounds_witness :
    validCreateEventRequest (fun _ => true)
        { calendarId := "primary", summary := "s"
          start_datetime := "2024-06-15T09:00:00"
          end_datetime := "2024-06-15T09:30:00"
          attachments := some (List.replicate 26 ⟨"f", none, none, none⟩) }
        = false
    ∧ validFreeBusyRequest
        { timeMin := "a", timeMax := "b", calendarExpansionMax := some 51
          items := [⟨"primary"⟩] } = false
    ∧ validFreeBusyRequest
        { timeMin := "a", timeMax := "b", groupExpansionMax := some 101
          items := [⟨"primary"⟩] } = false
    ∧ validCreateEventRequest (fun _ => false)
        { calendarId := "primary", summary := "s"
          start_datetime := "2024-06-15T09:00:00"
          end_datetime := "2024-06-15T09:30:00"
          attendees := some [{ email := "not-an-email" }] } = false
    ∧ validReminderOverride ⟨"popup", -5⟩ = true :=
  ⟨(C8_validation_bounds (fun _ => true) _
      { timeMin := "a", timeMax := "b", items := [⟨"primary"⟩] }).1
      _ rfl (by decide),
   (C8_validation_bounds (fun _ => true)
      { calendarId := "p", summary := "s", start_datetime := "x"
        end_datetime := "y" } _).2.1 51 rfl (by decide),
   (C8_validation_bounds (fun _ => true)
      { calendarId := "p", summary := "s", start_datetime := "x"
        end_datetime := "y" } _).2.2.1 101 rfl (by decide),
   (C8_validation_bounds (fun _ => false) _
      { timeMin := "a", timeMax := "b", items := [⟨"primary"⟩] }).2.2.2.1
      { email := "not-an-email" } _ rfl (List.mem_singleton.mpr rfl) rfl,
   (C8_validation_bounds (fun _ => true)
      { calendarId := "p", summary := "s", start_datetime := "x"
        end_datetime := "y" }
      { timeMin := "a", timeMax := "b", items := [⟨"primary"⟩] }).2.2.2.2 (-5)⟩

/-- Claim C9 (counterexample): the stdio transport registers the tool
`"create-event"`, the SSE transport does not (its tool is `"create_event"`),
and the two dispatch pipelines are not observably identical: on the same
bare-date argument the stdio create-event pipeline normalizes to midnight
with offset while the SSE pipeline passes the string through unchanged. -/
theorem C9_counterexample_tool_surfaces_differ :
    stdioToolNames.contains "create-event" = true
    ∧ sseToolNames.contains "create-event" = false
    ∧ validate_and_fix_datetime tzdbEx "2024-06-15" "UTC"
        = "2024-06-15T00:00:00+00:00"
    ∧ validate_and_fix_datetime_sse tzdbEx "UTC" "2024-06-15" "UTC"
        = .ok "2024-06-15" :=
  ⟨by decide, by decide, rfl, rfl⟩

/-- Claim C9 (amended): the two transports expose the same eight operations,
with tool names identical up to replacing each hyphen with an underscore;
the dispatch logic behind them is duplicated per transport rather than
shared, and the duplicated pipelines differ observably (bare-date
normalization inside create-event). -/
theorem C9_tool_sets_correspond_up_to_renaming :
    sseToolNames = stdioToolNames.map hyphenToUnderscore
    ∧ stdioToolNames.length = 8 ∧ sseToolNames.length = 8
    ∧ validate_and_fix_datetime tzdbEx "2024-06-15" "UTC"
        ≠ "2024-06-15"
    ∧ validate_and_fix_datetime_sse tzdbEx "UTC" "2024-06-15" "UTC"
        = .ok "2024-06-15" :=
  ⟨by decide, rfl, rfl, by decide, rfl⟩

/-- A create request with the single attendee `{email: "a@x.com"}`, all
other attendee fields left to their schema defaults. -/
def attendeeRoundtripRequest : CreateEventRequest :=
  { calendarId := "primary"
    summary := "sync"
    start_datetime := "2024-06-15T09:00:00"
    end_datetime := "2024-06-15T10:00:00"
    attendees := some [{ email := "a@x.com" }] }

/-- Claim C10: projecting a create request with attendees
`[{email:"a@x.com"}]` to the provider event body yields an attendees entry
carrying the same email with `responseStatus` defaulted to `"needsAction"`
and `additionalGuests` defaulted to `0` (plus the defaulted
`optional = false`; the `None`-valued fields are excluded). -/
theorem C10_attendee_defaults_roundtrip :
    buildEventAttendees attendeeRoundtripRequest =
      some [[("email", JVal.s "a@x.com"),
             ("optional", JVal.b false),
             ("responseStatus", JVal.s "needsAction"),
             ("additionalGuests", JVal.i 0)]]
    ∧ ((Attendee.model_dump_exclude_none { email := "a@x.com" }).lookup
        "responseStatus" = some (JVal.s "needsAction"))
    ∧ ((Attendee.model_dump_exclude_none { email := "a@x.com" }).lookup
        "additionalGuests" = some (JVal.i 0))
    ∧ ((Attendee.model_dump_exclude_none { email := "a@x.com" }).lookup
        "email" = some (JVal.s "a@x.com")) :=
  ⟨rfl, rfl, rfl, rfl⟩

end GCalMCP
